import Mathlib

set_option linter.unusedVariables false

/-!
Verification of the seismon ingestion-and-reconciliation pipeline
(`seismon/models.py`) against its natural-language specification.

Shallow embedding conventions:
* times are rational numbers of seconds since an arbitrary epoch
  (astropy `Time`/`TimeDelta` arithmetic is exact affine arithmetic on a
  single scale, so ℚ seconds is faithful; the lookback window is given in
  days and converted with the 86400 s/day factor that astropy applies when
  it compares the two `TimeDelta` quantities);
* coordinates, depths and magnitudes are rationals;
* the external scientific collaborators (obspy `gps2dist_azimuth`,
  `TauPyModel.get_travel_times`, `eqmon.make_prediction` together with
  `pandas.read_csv`, and the eqxml/quakeml report file readers) are oracles
  supplied as parameters, mirroring the spec's "external collaborator"
  boundary;
* Python exceptions are modelled with `Except`; a bare `except:` clause
  catches every error value;
* the database session is modelled as explicit lists of table rows.
-/

/-- Row of the `earthquakes` table (class `Earthquake` in `models.py`):
event identifier, coordinates, depth, magnitude, origin timestamp and
report-sent timestamp. -/
structure Earthquake where
  event_id : String
  lat : ℚ
  lon : ℚ
  depth : ℚ
  magnitude : ℚ
  date : ℚ
  sent : ℚ
deriving DecidableEq, Repr

/-- Row of the `ifos` table (class `Ifo` in `models.py`): detector name and
coordinates. -/
structure Ifo where
  ifo : String
  lat : ℚ
  lon : ℚ
deriving DecidableEq, Repr

/-- Row of the `predictions` table (class `Prediction` in `models.py`). -/
structure Prediction where
  event_id : String
  ifo : String
  D : ℚ
  P : ℚ
  S : ℚ
  R2p0 : ℚ
  R3p5 : ℚ
  R5p0 : ℚ
  Rfamp : ℚ
  Lockloss : ℤ
deriving DecidableEq, Repr

/-- Python errors raised on the embedded code paths: `IndexError` from
`phase.name.lower()[0]` on an empty name, `AttributeError` from
`(-1).datetime`, and an arbitrary error raised inside the travel-time
model lookup. -/
inductive PyErr where
  | indexError
  | attributeError
  | modelError
deriving DecidableEq, Repr

/-- One entry of the list returned by `TauPyModel.get_travel_times`:
a phase name and a travel time in seconds after the origin. -/
structure Arrival where
  name : String
  time : ℚ
deriving DecidableEq, Repr

/-- Value of the Python variables `Ptime`/`Stime` in `compute_traveltimes`:
either an astropy `Time` (here: ℚ seconds) or the initial int `-1`. -/
inductive PyTime where
  | time (t : ℚ)
  | intNeg1
deriving DecidableEq, Repr

/-- Python `Ptime == -1`: astropy `Time` compared with an int is `False`
(the comparison returns `NotImplemented` and `==` falls back to identity),
so only the initial int `-1` satisfies it. -/
def isNeg1 : PyTime → Bool
  | PyTime.time _ => false
  | PyTime.intNeg1 => true

/-- Python `Ptime.datetime` at line 332 of `models.py`: succeeds on a
`Time`, raises `AttributeError` on the int `-1` (this access sits outside
the `try` block, so the error is never caught). -/
def toDatetime : PyTime → Except PyErr ℚ
  | PyTime.time t => Except.ok t
  | PyTime.intNeg1 => Except.error PyErr.attributeError

/-- Python `phase.name.lower()[0]`: raises `IndexError` on an empty name,
otherwise yields the lower-cased first character. -/
def headLower (name : String) : Except PyErr Char :=
  match name.data with
  | [] => Except.error PyErr.indexError
  | c :: _ => Except.ok c.toLower

/-- Python `X == -1 and phase.name.lower()[0] == t` with short-circuit
evaluation: the indexing only runs when the left conjunct holds. -/
def phase_check (pending : Bool) (name : String) (target : Char) : Except PyErr Bool :=
  if pending then
    match headLower name with
    | Except.error e => Except.error e
    | Except.ok c => Except.ok (c == target)
  else Except.ok false

/-- The `for phase in arrivals` loop of `compute_traveltimes`
(lines 324-328): take the first p-named and first s-named phases. -/
def arrival_loop (eqdate : ℚ) : List Arrival → PyTime → PyTime → Except PyErr (PyTime × PyTime)
  | [], p, s => Except.ok (p, s)
  | a :: rest, p, s =>
    match phase_check (isNeg1 p) a.name 'p' with
    | Except.error e => Except.error e
    | Except.ok bp =>
      match phase_check (isNeg1 s) a.name 's' with
      | Except.error e => Except.error e
      | Except.ok bs =>
        arrival_loop eqdate rest
          (if bp then PyTime.time (eqdate + a.time) else p)
          (if bs then PyTime.time (eqdate + a.time) else s)

/-- The external geodesy and travel-time model used by
`compute_traveltimes`.  `gps2dist` is obspy `gps2dist_azimuth` restricted
to its first output, the distance in meters; `getTravelTimes` is
`TauPyModel("iasp91").get_travel_times` given the source depth in km and
the distance in meters (the conversion of the distance to degrees at line
310 is deterministic in the distance, so it is folded into this oracle;
π is transcendental and the model is external anyway). -/
structure TTOracles where
  gps2dist : ℚ → ℚ → ℚ → ℚ → ℚ
  getTravelTimes : ℚ → ℚ → Except PyErr (List Arrival)

/-- Tuple returned by `compute_traveltimes` (line 332). -/
structure TraveltimeResult where
  Dist : ℚ
  Ptime : ℚ
  Stime : ℚ
  Rtwotime : ℚ
  RthreePointFivetime : ℚ
  Rfivetime : ℚ
deriving DecidableEq, Repr

/-- Distance in meters between the event and the detector
(`gps2dist_azimuth(eqlat, eqlon, ifolat, ifolon)`, line 305). -/
def traveltime_distance (tt : TTOracles) (eq : Earthquake) (det : Ifo) : ℚ :=
  tt.gps2dist eq.lat eq.lon det.lat det.lon

/-- Body of the `try` block (lines 318-328): the model lookup followed by
the arrival loop, with `Ptime`/`Stime` initialised to the int `-1`. -/
def model_lookup_and_loop (tt : TTOracles) (eq : Earthquake) (det : Ifo) :
    Except PyErr (PyTime × PyTime) :=
  match tt.getTravelTimes eq.depth (traveltime_distance tt eq det) with
  | Except.error e => Except.error e
  | Except.ok arrivals => arrival_loop eq.date arrivals PyTime.intNeg1 PyTime.intNeg1

/-- The `try`/`except` of lines 318-330: any error raised inside the body
makes both `Ptime` and `Stime` fall back to `Rtwotime`, the 2.0 km/s
surface-wave arrival. -/
def traveltime_ps (tt : TTOracles) (eq : Earthquake) (det : Ifo) : PyTime × PyTime :=
  match model_lookup_and_loop tt eq det with
  | Except.ok ps => ps
  | Except.error _ =>
    (PyTime.time (eq.date + traveltime_distance tt eq det / 2000),
     PyTime.time (eq.date + traveltime_distance tt eq det / 2000))

/-- `compute_traveltimes(earthquake, ifo)` (lines 293-332): distance in km,
P and S arrival times, and the three fixed-speed surface-wave arrival
times `eqtime + distance/2000`, `eqtime + distance/3500`,
`eqtime + distance/5000` (speeds in m/s, distance in meters).  The final
`.datetime` accesses sit outside the `try`, so an int `-1` left in
`Ptime`/`Stime` raises an uncaught `AttributeError` (P first, as Python
evaluates the tuple left to right). -/
def compute_traveltimes (tt : TTOracles) (eq : Earthquake) (det : Ifo) :
    Except PyErr TraveltimeResult :=
  match toDatetime (traveltime_ps tt eq det).1, toDatetime (traveltime_ps tt eq det).2 with
  | Except.ok P, Except.ok S =>
    Except.ok ⟨traveltime_distance tt eq det / 1000, P, S,
      eq.date + traveltime_distance tt eq det / 2000,
      eq.date + traveltime_distance tt eq det / 3500,
      eq.date + traveltime_distance tt eq det / 5000⟩
  | Except.error e, _ => Except.error e
  | Except.ok _, Except.error e => Except.error e

/-- Claim C5: if the travel-time model lookup raises any error for a given
(event, detector) pair, the returned P-wave and S-wave arrival times both
equal the 2.0 km/s surface-wave arrival time (origin plus distance divided
by 2.0 km/s) for that pair, and the error is not propagated out of
`compute_traveltimes`. -/
theorem traveltime_error_fallback (tt : TTOracles) (eq : Earthquake) (det : Ifo) (e : PyErr)
    (h : tt.getTravelTimes eq.depth (traveltime_distance tt eq det) = Except.error e) :
    ∃ r, compute_traveltimes tt eq det = Except.ok r ∧
      r.Ptime = eq.date + traveltime_distance tt eq det / 2000 ∧
      r.Stime = eq.date + traveltime_distance tt eq det / 2000 ∧
      r.Rtwotime = eq.date + traveltime_distance tt eq det / 2000 := by
  have hml : model_lookup_and_loop tt eq det = Except.error e := by
    unfold model_lookup_and_loop
    rw [h]
  have hps : traveltime_ps tt eq det =
      (PyTime.time (eq.date + traveltime_distance tt eq det / 2000),
       PyTime.time (eq.date + traveltime_distance tt eq det / 2000)) := by
    unfold traveltime_ps
    rw [hml]
  refine ⟨⟨traveltime_distance tt eq det / 1000,
    eq.date + traveltime_distance tt eq det / 2000,
    eq.date + traveltime_distance tt eq det / 2000,
    eq.date + traveltime_distance tt eq det / 2000,
    eq.date + traveltime_distance tt eq det / 3500,
    eq.date + traveltime_distance tt eq det / 5000⟩, ?_, rfl, rfl, rfl⟩
  unfold compute_traveltimes
  rw [hps]
  rfl

/-- Claim C6: for every (event, detector) pair with positive great-circle
distance, the three fixed-speed surface-wave arrival times computed by
`compute_traveltimes` satisfy origin + D/5.0 ≤ origin + D/3.5 ≤
origin + D/2.0: the 5.0 km/s arrival is no later than the 3.5 km/s
arrival, which is no later than the 2.0 km/s arrival. -/
theorem surface_wave_time_ordering (tt : TTOracles) (eq : Earthquake) (det : Ifo)
    (r : TraveltimeResult)
    (hd : 0 < traveltime_distance tt eq det)
    (hr : compute_traveltimes tt eq det = Except.ok r) :
    r.Rfivetime ≤ r.RthreePointFivetime ∧ r.RthreePointFivetime ≤ r.Rtwotime := by
  unfold compute_traveltimes at hr
  split at hr
  · injection hr with hr
    subst hr
    constructor
    · show eq.date + traveltime_distance tt eq det / 5000 ≤
        eq.date + traveltime_distance tt eq det / 3500
      linarith
    · show eq.date + traveltime_distance tt eq det / 3500 ≤
        eq.date + traveltime_distance tt eq det / 2000
      linarith
  · exact absurd hr (by simp)
  · exact absurd hr (by simp)

/-- Helper for claim C10: if every arrival has a nonempty name whose
lower-cased first character is not `p`, the loop leaves `Ptime` as the
int `-1` and raises nothing. -/
theorem arrival_loop_no_p (eqdate : ℚ) (arrivals : List Arrival)
    (hnames : ∀ a ∈ arrivals, ∃ c cs, a.name.data = c :: cs ∧ c.toLower ≠ 'p') :
    ∀ s, ∃ s2, arrival_loop eqdate arrivals PyTime.intNeg1 s = Except.ok (PyTime.intNeg1, s2) := by
  induction arrivals with
  | nil => exact fun s => ⟨s, rfl⟩
  | cons a rest ih =>
    intro s
    obtain ⟨c, cs, hdata, hcp⟩ := hnames a (List.mem_cons_self a rest)
    have hpc : phase_check (isNeg1 PyTime.intNeg1) a.name 'p' = Except.ok false := by
      unfold phase_check headLower
      rw [hdata]
      simp [hcp]
    have hrest : ∀ a ∈ rest, ∃ c cs, a.name.data = c :: cs ∧ c.toLower ≠ 'p' :=
      fun a ha => hnames a (List.mem_cons_of_mem _ ha)
    cases s with
    | time t =>
      have hsc : phase_check (isNeg1 (PyTime.time t)) a.name 's' = Except.ok false := rfl
      obtain ⟨s2, hs2⟩ := ih hrest (PyTime.time t)
      refine ⟨s2, ?_⟩
      unfold arrival_loop
      rw [hpc, hsc]
      simpa using hs2
    | intNeg1 =>
      have hsc : phase_check (isNeg1 PyTime.intNeg1) a.name 's' =
          Except.ok (c.toLower == 's') := by
        unfold phase_check headLower
        rw [hdata]
        rfl
      by_cases hcs : (c.toLower == 's') = true
      · obtain ⟨s2, hs2⟩ := ih hrest (PyTime.time (eqdate + a.time))
        refine ⟨s2, ?_⟩
        unfold arrival_loop
        rw [hpc, hsc, hcs]
        simpa using hs2
      · obtain ⟨s2, hs2⟩ := ih hrest PyTime.intNeg1
        refine ⟨s2, ?_⟩
        unfold arrival_loop
        rw [hpc, hsc, Bool.eq_false_iff.mpr hcs]
        simpa using hs2

/-- Helper for claim C10, s-side: if every arrival has a nonempty name
whose lower-cased first character is not `s`, the loop leaves `Stime` as
the int `-1` and raises nothing (whatever happens to `Ptime`). -/
theorem arrival_loop_no_s (eqdate : ℚ) (arrivals : List Arrival)
    (hnames : ∀ a ∈ arrivals, ∃ c cs, a.name.data = c :: cs ∧ c.toLower ≠ 's') :
    ∀ p, ∃ p2, arrival_loop eqdate arrivals p PyTime.intNeg1 = Except.ok (p2, PyTime.intNeg1) := by
  induction arrivals with
  | nil => exact fun p => ⟨p, rfl⟩
  | cons a rest ih =>
    intro p
    obtain ⟨c, cs, hdata, hcs⟩ := hnames a (List.mem_cons_self a rest)
    have hsc : phase_check (isNeg1 PyTime.intNeg1) a.name 's' = Except.ok false := by
      unfold phase_check headLower
      rw [hdata]
      simp [hcs]
    have hrest : ∀ a ∈ rest, ∃ c cs, a.name.data = c :: cs ∧ c.toLower ≠ 's' :=
      fun a ha => hnames a (List.mem_cons_of_mem _ ha)
    cases p with
    | time t =>
      have hpc : phase_check (isNeg1 (PyTime.time t)) a.name 'p' = Except.ok false := rfl
      obtain ⟨p2, hp2⟩ := ih hrest (PyTime.time t)
      refine ⟨p2, ?_⟩
      unfold arrival_loop
      rw [hpc, hsc]
      simpa using hp2
    | intNeg1 =>
      have hpc : phase_check (isNeg1 PyTime.intNeg1) a.name 'p' =
          Except.ok (c.toLower == 'p') := by
        unfold phase_check headLower
        rw [hdata]
        rfl
      by_cases hcp : (c.toLower == 'p') = true
      · obtain ⟨p2, hp2⟩ := ih hrest (PyTime.time (eqdate + a.time))
        refine ⟨p2, ?_⟩
        unfold arrival_loop
        rw [hpc, hsc, hcp]
        simpa using hp2
      · obtain ⟨p2, hp2⟩ := ih hrest PyTime.intNeg1
        refine ⟨p2, ?_⟩
        unfold arrival_loop
        rw [hpc, hsc, Bool.eq_false_iff.mpr hcp]
        simpa using hp2

/-- Claim C10: if the travel-time model lookup succeeds but returns an
arrival list containing no phase whose name begins with `p` (or none
beginning with `s`), the loop leaves `Ptime` (or `Stime`) as the int `-1`
and the subsequent `.datetime` access raises an `AttributeError` that the
2.0 km/s fallback does not cover: `compute_traveltimes` fails instead of
returning arrival times. -/
theorem missing_p_phase_attribute_error (tt : TTOracles) (eq : Earthquake) (det : Ifo)
    (arrivals : List Arrival)
    (hok : tt.getTravelTimes eq.depth (traveltime_distance tt eq det) = Except.ok arrivals)
    (hmissing :
      (∀ a ∈ arrivals, ∃ c cs, a.name.data = c :: cs ∧ c.toLower ≠ 'p') ∨
      (∀ a ∈ arrivals, ∃ c cs, a.name.data = c :: cs ∧ c.toLower ≠ 's')) :
    compute_traveltimes tt eq det = Except.error PyErr.attributeError := by
  rcases hmissing with hnames | hnames
  · obtain ⟨s2, hloop⟩ := arrival_loop_no_p eq.date arrivals hnames PyTime.intNeg1
    have hml : model_lookup_and_loop tt eq det = Except.ok (PyTime.intNeg1, s2) := by
      unfold model_lookup_and_loop
      rw [hok]
      exact hloop
    have hps : traveltime_ps tt eq det = (PyTime.intNeg1, s2) := by
      unfold traveltime_ps
      rw [hml]
    unfold compute_traveltimes
    rw [hps]
    cases s2 <;> rfl
  · obtain ⟨p2, hloop⟩ := arrival_loop_no_s eq.date arrivals hnames PyTime.intNeg1
    have hml : model_lookup_and_loop tt eq det = Except.ok (p2, PyTime.intNeg1) := by
      unfold model_lookup_and_loop
      rw [hok]
      exact hloop
    have hps : traveltime_ps tt eq det = (p2, PyTime.intNeg1) := by
      unfold traveltime_ps
      rw [hml]
    unfold compute_traveltimes
    rw [hps]
    cases p2 <;> rfl

/-- Sample earthquake for concrete witnesses (the end-to-end scenario of
the spec: (34.0, -118.0), depth 10 km, magnitude 5.0). -/
def eq_sample : Earthquake := ⟨"us1000test", 34, -118, 10, 5, 0, 0⟩

/-- Sample detector for concrete witnesses: the LHO registry row. -/
def ifo_lho : Ifo := ⟨"LHO", 46.6475, -119.5986⟩

/-- Oracle stub whose travel-time model lookup always raises. -/
def tt_err : TTOracles := ⟨fun _ _ _ _ => 7000, fun _ _ => Except.error PyErr.modelError⟩

/-- Witness for claim C5 at a concrete input: the always-raising oracle
stub yields the 2.0 km/s fallback for both P and S. -/
theorem traveltime_error_fallback_witness :
    ∃ r, compute_traveltimes tt_err eq_sample ifo_lho = Except.ok r ∧
      r.Ptime = eq_sample.date + traveltime_distance tt_err eq_sample ifo_lho / 2000 ∧
      r.Stime = eq_sample.date + traveltime_distance tt_err eq_sample ifo_lho / 2000 ∧
      r.Rtwotime = eq_sample.date + traveltime_distance tt_err eq_sample ifo_lho / 2000 :=
  traveltime_error_fallback tt_err eq_sample ifo_lho PyErr.modelError rfl

/-- Concrete travel-time result for the C6 witness: the record
`compute_traveltimes` produces for `tt_err`, `eq_sample`, `ifo_lho`
(distance 7000 m, so 7 km, origin 0). -/
def tt_sample_r : TraveltimeResult :=
  ⟨traveltime_distance tt_err eq_sample ifo_lho / 1000,
   eq_sample.date + traveltime_distance tt_err eq_sample ifo_lho / 2000,
   eq_sample.date + traveltime_distance tt_err eq_sample ifo_lho / 2000,
   eq_sample.date + traveltime_distance tt_err eq_sample ifo_lho / 2000,
   eq_sample.date + traveltime_distance tt_err eq_sample ifo_lho / 3500,
   eq_sample.date + traveltime_distance tt_err eq_sample ifo_lho / 5000⟩

/-- Witness for claim C6 at a concrete input with distance 7000 m > 0. -/
theorem surface_wave_time_ordering_witness :
    tt_sample_r.Rfivetime ≤ tt_sample_r.RthreePointFivetime ∧
      tt_sample_r.RthreePointFivetime ≤ tt_sample_r.Rtwotime :=
  surface_wave_time_ordering tt_err eq_sample ifo_lho tt_sample_r (by decide) rfl

/-- Oracle stub whose model lookup succeeds with a single S-named phase. -/
def tt_s_only : TTOracles := ⟨fun _ _ _ _ => 7000, fun _ _ => Except.ok [⟨"S", 10⟩]⟩

/-- Oracle stub whose model lookup succeeds with a single P-named phase. -/
def tt_p_only : TTOracles := ⟨fun _ _ _ _ => 7000, fun _ _ => Except.ok [⟨"P", 8⟩]⟩

/-- Witness for claim C10 at concrete inputs, covering both cases: a
successful lookup with only an S phase (no p-phase), and one with only a
P phase (no s-phase), each make `compute_traveltimes` raise
`AttributeError`. -/
theorem missing_p_phase_attribute_error_witness :
    compute_traveltimes tt_s_only eq_sample ifo_lho = Except.error PyErr.attributeError ∧
      compute_traveltimes tt_p_only eq_sample ifo_lho = Except.error PyErr.attributeError :=
  ⟨missing_p_phase_attribute_error tt_s_only eq_sample ifo_lho [⟨"S", 10⟩] rfl
      (Or.inl (by
        intro a ha
        rw [List.mem_singleton] at ha
        subst ha
        exact ⟨'S', [], rfl, by decide⟩)),
   missing_p_phase_attribute_error tt_p_only eq_sample ifo_lho [⟨"P", 8⟩] rfl
      (Or.inr (by
        intro a ha
        rw [List.mem_singleton] at ha
        subst ha
        exact ⟨'P', [], rfl, by decide⟩))⟩

/-- Result of `eqmon.make_prediction` (line 361): predicted peak
amplitude, lockloss tag, their sigmas, and the time domain value; only the
first two are returned by `compute_amplitudes`. -/
structure AmpResult where
  predicted_peak_amplitude : ℚ
  LocklossTag : ℤ
  Rfamp_sigma : ℚ
  LocklossTag_sigma : ℚ
  TD : ℚ

/-- The external amplitude/risk regression used by `compute_amplitudes`:
`pandas.read_csv(trainFile)` composed with `eqmon.make_prediction`, taking
the training file name, event latitude, longitude, magnitude, depth,
detector latitude, longitude, the amplitude threshold, the predictor
column name, and the lockloss ground-motion threshold. -/
structure AmpOracle where
  make_prediction : String → ℚ → ℚ → ℚ → ℚ → ℚ → ℚ → ℚ → String → ℚ → AmpResult

/-- Value of the Python variable `ifo` inside `compute_amplitudes`: at the
only call site (`compute_predictions`, line 277) it is an `Ifo` ORM
instance, never a string. -/
inductive PyIfoVal where
  | obj (i : Ifo)
  | str (s : String)

/-- Python `ifo == "LLO"` where `ifo` may be an ORM instance: SQLAlchemy
declarative models do not override `__eq__`, so comparing an `Ifo`
instance with a `str` falls back to identity and is always `False`; only
a genuine string compares by content. -/
def pyEqStr : PyIfoVal → String → Bool
  | PyIfoVal.obj _, _ => false
  | PyIfoVal.str s, t => s == t

/-- Training-dataset selection of `compute_amplitudes` (lines 348-353):
`if ifo == "LLO"` picks the LLO catalogue, `elif ifo == "Virgo"` and the
final `else` both pick the LHO catalogue. -/
def select_train_file (ifo : PyIfoVal) : String :=
  if pyEqStr ifo "LLO" then "LLO_processed_USGS_global_EQ_catalogue.csv"
  else if pyEqStr ifo "Virgo" then "LHO_processed_USGS_global_EQ_catalogue.csv"
  else "LHO_processed_USGS_global_EQ_catalogue.csv"

/-- `compute_amplitudes(earthquake, ifo)` (lines 335-370): select the
training file from the detector argument (an ORM instance), call the
regression with `thresh=0.1`, `predictor='peak_data_um_mean_subtracted'`
and `locklossMotionThresh=10*1e-6`, and return the predicted peak
amplitude and the lockloss tag. -/
def compute_amplitudes (amp : AmpOracle) (eq : Earthquake) (det : Ifo) : ℚ × ℤ :=
  let res := amp.make_prediction (select_train_file (PyIfoVal.obj det))
    eq.lat eq.lon eq.magnitude eq.depth det.lat det.lon
    (1/10) "peak_data_um_mean_subtracted" (1/100000)
  (res.predicted_peak_amplitude, res.LocklossTag)

/-- The LLO row of the detector registry seeded by `ingest_ifos`. -/
def ifo_llo : Ifo := ⟨"LLO", 30.4986, -90.7483⟩

/-- Claim C4 is a code bug: the amplitude phase is supposed to map the
detector named "LLO" to the LLO training file, but `compute_amplitudes`
compares the `Ifo` ORM instance itself (not its name) with the string
"LLO", which is always `False`, so the LLO detector also falls through to
the default LHO training file. -/
theorem llo_selects_lho_file :
    select_train_file (PyIfoVal.obj ifo_llo) = "LHO_processed_USGS_global_EQ_catalogue.csv" ∧
      select_train_file (PyIfoVal.obj ifo_llo) ≠ "LLO_processed_USGS_global_EQ_catalogue.csv" ∧
      select_train_file (PyIfoVal.str "LLO") = "LLO_processed_USGS_global_EQ_catalogue.csv" := by
  exact ⟨rfl, by decide, rfl⟩

/-- Structured attribute set produced by the external report readers
(`eqmon.read_eqxml` / `eqmon.read_quakeml`): the fields that
`ingest_earthquakes` reads, plus presence flags for the two keys it
checks with `in` ("GPS" and "Magnitude"). -/
structure AttributeDic where
  eventName : String
  time : ℚ
  sent : ℚ
  depth : ℚ
  latitude : ℚ
  longitude : ℚ
  magnitude : ℚ
  hasGPS : Bool
  hasMagnitude : Bool
deriving DecidableEq, Repr

/-- One time-partition directory of the feed: whether the sentinel marker
`eqxml.txt` is already present, and the structured attribute set obtained
from whichever report file is present (`none` when no report file exists
or the reader returns the empty list). -/
structure TimeFolder where
  hasSentinel : Bool
  parseResult : Option AttributeDic
deriving DecidableEq, Repr

/-- One event folder of the feed root: the event name and the sorted
time-partition directories under `folder/eventName[0:2]`. -/
structure EventFolder where
  eventName : String
  timeFolders : List TimeFolder
deriving DecidableEq, Repr

/-- Body of the `for timeFolder in timeFolders` loop of
`ingest_earthquakes` (lines 403-443) for one time-partition directory.
`Except.error` models the `return` statements (lines 410, 422, 425),
which abort the entire scan; `Except.ok` means the loop continues.  The
state is the list of `Earthquake` rows (each insert is committed
immediately).  The sentinel write (lines 412-414) touches only the
filesystem and is not part of the row state. -/
def process_time_folder (now lookback : ℚ) (rpt : Bool) (tf : TimeFolder)
    (evs : List Earthquake) : Except (List Earthquake) (List Earthquake) :=
  if !rpt && tf.hasSentinel then Except.error evs
  else
    match tf.parseResult with
    | none => Except.error evs
    | some d =>
      if !d.hasGPS || !d.hasMagnitude then Except.error evs
      else if now - d.time > lookback * 86400 then Except.ok evs
      else if evs.any (fun e => e.event_id == d.eventName) then Except.ok evs
      else Except.ok (evs ++
        [⟨d.eventName, d.latitude, d.longitude, d.depth, d.magnitude, d.time, d.sent⟩])

/-- The `for timeFolder in timeFolders` loop: an abort (`return`) stops
processing all remaining time-partition directories. -/
def process_time_folders (now lookback : ℚ) (rpt : Bool) :
    List TimeFolder → List Earthquake → Except (List Earthquake) (List Earthquake)
  | [], evs => Except.ok evs
  | tf :: rest, evs =>
    match process_time_folder now lookback rpt tf evs with
    | Except.ok evs1 => process_time_folders now lookback rpt rest evs1
    | Except.error evs1 => Except.error evs1

/-- The outer `for folder in folders` loop of `ingest_earthquakes`
(lines 393-443): event folders with no time-partition directories are
skipped (`continue`, line 401); a `return` inside the inner loop aborts
the whole scan. -/
def ingest_folders (now lookback : ℚ) (rpt : Bool) :
    List EventFolder → List Earthquake → Except (List Earthquake) (List Earthquake)
  | [], evs => Except.ok evs
  | f :: rest, evs =>
    if f.timeFolders.isEmpty then ingest_folders now lookback rpt rest evs
    else
      match process_time_folders now lookback rpt f.timeFolders evs with
      | Except.ok evs1 => ingest_folders now lookback rpt rest evs1
      | Except.error evs1 => Except.error evs1

/-- `ingest_earthquakes(config, lookback, repeat)` (lines 387-443): the
resulting Earthquake rows together with a flag telling whether the scan
ran to completion (`false` when a `return` aborted it early). -/
def ingest_earthquakes (now lookback : ℚ) (rpt : Bool) (feed : List EventFolder)
    (evs : List Earthquake) : List Earthquake × Bool :=
  match ingest_folders now lookback rpt feed evs with
  | Except.ok e => (e, true)
  | Except.error e => (e, false)

/-- Committed row state of a scan step, whether or not it aborted. -/
def scan_store : Except (List Earthquake) (List Earthquake) → List Earthquake
  | Except.ok l => l
  | Except.error l => l

/-- Helper: one time-partition step either leaves the Earthquake rows
unchanged or appends the single row of a report whose origin time passes
the lookback check. -/
theorem process_time_folder_cases (now lookback : ℚ) (rpt : Bool) (tf : TimeFolder)
    (evs : List Earthquake) :
    scan_store (process_time_folder now lookback rpt tf evs) = evs ∨
      ∃ d, tf.parseResult = some d ∧ ¬ (now - d.time > lookback * 86400) ∧
        scan_store (process_time_folder now lookback rpt tf evs) = evs ++
          [⟨d.eventName, d.latitude, d.longitude, d.depth, d.magnitude, d.time, d.sent⟩] := by
  unfold process_time_folder
  by_cases h1 : (!rpt && tf.hasSentinel) = true
  · left
    rw [if_pos h1]
    rfl
  · rw [if_neg h1]
    cases hpr : tf.parseResult with
    | none => left; rfl
    | some d =>
      dsimp only
      by_cases h2 : (!d.hasGPS || !d.hasMagnitude) = true
      · left
        rw [if_pos h2]
        rfl
      · rw [if_neg h2]
        by_cases h3 : now - d.time > lookback * 86400
        · left
          rw [if_pos h3]
          rfl
        · rw [if_neg h3]
          by_cases h4 : (evs.any fun e => e.event_id == d.eventName) = true
          · left
            rw [if_pos h4]
            rfl
          · right
            refine ⟨d, rfl, h3, ?_⟩
            rw [if_neg h4]
            rfl

/-- Helper: any row present after one time-partition step was already
present, or records an origin time within the lookback window. -/
theorem process_time_folder_mem (now lookback : ℚ) (rpt : Bool) (tf : TimeFolder)
    (evs : List Earthquake) (row : Earthquake)
    (h : row ∈ scan_store (process_time_folder now lookback rpt tf evs)) :
    row ∈ evs ∨ ¬ (now - row.date > lookback * 86400) := by
  rcases process_time_folder_cases now lookback rpt tf evs with hc | ⟨d, _, hdate, hc⟩
  · rw [hc] at h
    exact Or.inl h
  · rw [hc] at h
    rcases List.mem_append.mp h with h | h
    · exact Or.inl h
    · obtain rfl := List.mem_singleton.mp h
      exact Or.inr hdate

/-- Helper: the membership property lifted over the inner loop. -/
theorem process_time_folders_mem (now lookback : ℚ) (rpt : Bool) (tfs : List TimeFolder) :
    ∀ (evs : List Earthquake) (row : Earthquake),
      row ∈ scan_store (process_time_folders now lookback rpt tfs evs) →
        row ∈ evs ∨ ¬ (now - row.date > lookback * 86400) := by
  induction tfs with
  | nil => intro evs row h; exact Or.inl h
  | cons tf rest ih =>
    intro evs row h
    unfold process_time_folders at h
    cases hpf : process_time_folder now lookback rpt tf evs with
    | ok evs1 =>
      rw [hpf] at h
      rcases ih evs1 row h with h1 | h1
      · have : row ∈ scan_store (process_time_folder now lookback rpt tf evs) := by
          rw [hpf]; exact h1
        exact process_time_folder_mem now lookback rpt tf evs row this
      · exact Or.inr h1
    | error evs1 =>
      rw [hpf] at h
      have : row ∈ scan_store (process_time_folder now lookback rpt tf evs) := by
        rw [hpf]; exact h
      exact process_time_folder_mem now lookback rpt tf evs row this

/-- Helper: the membership property lifted over the outer loop. -/
theorem ingest_folders_mem (now lookback : ℚ) (rpt : Bool) (fs : List EventFolder) :
    ∀ (evs : List Earthquake) (row : Earthquake),
      row ∈ scan_store (ingest_folders now lookback rpt fs evs) →
        row ∈ evs ∨ ¬ (now - row.date > lookback * 86400) := by
  induction fs with
  | nil => intro evs row h; exact Or.inl h
  | cons f rest ih =>
    intro evs row h
    unfold ingest_folders at h
    by_cases he : f.timeFolders.isEmpty
    · rw [if_pos he] at h
      exact ih evs row h
    · rw [if_neg he] at h
      cases hpf : process_time_folders now lookback rpt f.timeFolders evs with
      | ok evs1 =>
        rw [hpf] at h
        rcases ih evs1 row h with h1 | h1
        · have : row ∈ scan_store (process_time_folders now lookback rpt f.timeFolders evs) := by
            rw [hpf]; exact h1
          exact process_time_folders_mem now lookback rpt f.timeFolders evs row this
        · exact Or.inr h1
      | error evs1 =>
        rw [hpf] at h
        have : row ∈ scan_store (process_time_folders now lookback rpt f.timeFolders evs) := by
          rw [hpf]; exact h
        exact process_time_folders_mem now lookback rpt f.timeFolders evs row this

/-- Claim C7: every Earthquake row present after a scan was either already
in the Event Store or records an origin timestamp within the lookback
window (`now - date ≤ lookback` days); in particular a parsed report whose
origin timestamp is older than now − lookback is never inserted, even if
otherwise well-formed. -/
theorem lookback_filter (now lookback : ℚ) (rpt : Bool) (feed : List EventFolder)
    (evs : List Earthquake) (row : Earthquake)
    (h : row ∈ (ingest_earthquakes now lookback rpt feed evs).1) :
    row ∈ evs ∨ ¬ (now - row.date > lookback * 86400) := by
  have h1 : (ingest_earthquakes now lookback rpt feed evs).1 =
      scan_store (ingest_folders now lookback rpt feed evs) := by
    unfold ingest_earthquakes
    cases ingest_folders now lookback rpt feed evs <;> rfl
  rw [h1] at h
  exact ingest_folders_mem now lookback rpt feed evs row h

/-- Claim C3: if parsing a report yields no structured attributes, or the
parsed attributes lack the required "GPS"/"Magnitude" keys, the scanning
routine returns immediately: the remaining time-partition directories and
the remaining event folders of the feed are not processed, and no event is
inserted for the offending report (the malformed report aborts the entire
scan). -/
theorem malformed_report_aborts_scan (now lookback : ℚ) (rpt : Bool) (tf : TimeFolder)
    (rest : List TimeFolder) (nm : String) (folders : List EventFolder)
    (evs : List Earthquake)
    (hsent : rpt = true ∨ tf.hasSentinel = false)
    (hmal : tf.parseResult = none ∨
      ∃ d, tf.parseResult = some d ∧ (d.hasGPS = false ∨ d.hasMagnitude = false)) :
    process_time_folders now lookback rpt (tf :: rest) evs = Except.error evs ∧
      ingest_earthquakes now lookback rpt (⟨nm, tf :: rest⟩ :: folders) evs = (evs, false) := by
  have hb : (!rpt && tf.hasSentinel) = false := by
    rcases hsent with h | h <;> simp [h]
  have hfold : process_time_folder now lookback rpt tf evs = Except.error evs := by
    unfold process_time_folder
    rw [hb]
    simp only [Bool.false_eq_true, if_false]
    rcases hmal with h | ⟨d, hd, hgm⟩
    · rw [h]
    · rw [hd]
      dsimp only
      have hgm2 : (!d.hasGPS || !d.hasMagnitude) = true := by
        rcases hgm with h | h <;> simp [h]
      rw [if_pos hgm2]
  have hmain : process_time_folders now lookback rpt (tf :: rest) evs = Except.error evs := by
    unfold process_time_folders
    rw [hfold]
  refine ⟨hmain, ?_⟩
  have hif : ingest_folders now lookback rpt (⟨nm, tf :: rest⟩ :: folders) evs =
      Except.error evs := by
    unfold ingest_folders
    simp only [List.isEmpty_cons, Bool.false_eq_true, if_false]
    rw [hmain]
  unfold ingest_earthquakes
  rw [hif]

/-- Time-partition directory whose report parses to nothing. -/
def tf_malformed : TimeFolder := ⟨false, none⟩

/-- Witness for claim C3 at a concrete input: a single malformed
time-partition directory aborts the scan with nothing inserted. -/
theorem malformed_report_aborts_scan_witness :
    process_time_folders 0 7 false [tf_malformed] [] = Except.error [] ∧
      ingest_earthquakes 0 7 false [⟨"us3000cccc", [tf_malformed]⟩] [] = ([], false) :=
  malformed_report_aborts_scan 0 7 false tf_malformed [] "us3000cccc" [] []
    (Or.inr rfl) (Or.inl rfl)

/-- Attributes of the already-processed report of `folder_done`. -/
def dic_first : AttributeDic := ⟨"us1000aaaa", 0, 0, 10, 34, -118, 5, true, true⟩

/-- Attributes of the fresh, well-formed report of `folder_new`. -/
def dic_second : AttributeDic := ⟨"us2000bbbb", 0, 0, 33, 35, -117, 6, true, true⟩

/-- Event folder whose only time-partition directory already carries the
sentinel marker `eqxml.txt`. -/
def folder_done : EventFolder := ⟨"us1000aaaa", [⟨true, some dic_first⟩]⟩

/-- Event folder holding a fresh, well-formed, in-window report with no
sentinel marker. -/
def folder_new : EventFolder := ⟨"us2000bbbb", [⟨false, some dic_second⟩]⟩

/-- The Earthquake row that `folder_new`'s report produces. -/
def row_second : Earthquake := ⟨"us2000bbbb", 35, -117, 33, 6, 0, 0⟩

/-- Evaluation helper: scanned on its own, `folder_new` ingests its event
and the scan completes. -/
theorem ingest_folder_new_eval :
    ingest_earthquakes 0 7 false [folder_new] [] = ([row_second], true) := by
  norm_num [ingest_earthquakes, ingest_folders, process_time_folders, process_time_folder,
    folder_new, dic_second, row_second]

/-- Claim C2 is a code bug: a sentinel marker is supposed to make the
scanner skip only that time-partition directory and continue with the rest
of the feed, but `ingest_earthquakes` executes `return` (line 410), so the
whole scan aborts: with `folder_done` (already processed) ahead of
`folder_new` (fresh, well-formed, in-window — ingested when scanned on its
own), nothing at all is ingested. -/
theorem sentinel_return_aborts_scan :
    ingest_earthquakes 0 7 false [folder_done, folder_new] [] = ([], false) ∧
      ingest_earthquakes 0 7 false [folder_new] [] = ([row_second], true) := by
  exact ⟨rfl, ingest_folder_new_eval⟩

/-- Witness for claim C7 at a concrete input: the one row ingested from
`folder_new` satisfies the lookback bound. -/
theorem lookback_filter_witness :
    row_second ∈ ([] : List Earthquake) ∨ ¬ ((0:ℚ) - row_second.date > 7 * 86400) :=
  lookback_filter 0 7 false [folder_new] [] row_second
    (by rw [ingest_folder_new_eval]; exact List.mem_singleton.mpr rfl)

/-- `compute_predictions(earthquake, ifo)` (lines 274-290): combine the
travel-time phase and the amplitude phase into one Prediction row keyed by
(event identifier, detector name); an error raised by the travel-time
phase propagates (there is no handler above it in `run_seismon`). -/
def compute_predictions (tt : TTOracles) (amp : AmpOracle) (eq : Earthquake) (det : Ifo) :
    Except PyErr Prediction :=
  match compute_traveltimes tt eq det with
  | Except.error e => Except.error e
  | Except.ok r =>
    Except.ok ⟨eq.event_id, det.ifo, r.Dist, r.Ptime, r.Stime, r.Rtwotime,
      r.RthreePointFivetime, r.Rfivetime,
      (compute_amplitudes amp eq det).1, (compute_amplitudes amp eq det).2⟩

/-- The at-most-once invariant of the Prediction Store: no two rows share
the (event identifier, detector name) key. -/
def atMostOne (st : List Prediction) : Prop :=
  List.Pairwise (fun a b => ¬ (a.event_id = b.event_id ∧ a.ifo = b.ifo)) st

/-- The filter of `Prediction.query.filter_by(event_id=..., ifo=...)`. -/
def prediction_key_matches (p : Prediction) (eid det : String) : Bool :=
  p.event_id == eid && p.ifo == det

/-- Lines 462-465 of `run_seismon`: query the Prediction rows keyed by the
pair; only when none exist, compute and insert one.  The second component
is `false` when the computation raised (aborting the cycle). -/
def insert_if_absent (tt : TTOracles) (amp : AmpOracle) (eq : Earthquake) (det : Ifo)
    (st : List Prediction) : List Prediction × Bool :=
  if (st.filter fun p => prediction_key_matches p eq.event_id det.ifo).length = 0 then
    match compute_predictions tt amp eq det with
    | Except.ok row => (st ++ [row], true)
    | Except.error _ => (st, false)
  else (st, true)

/-- Lines 466-468 of `run_seismon`: `Prediction.query.filter_by(...).one()`
raises unless exactly one row matches the key, aborting the cycle. -/
def one_check (eid det : String) (r : List Prediction × Bool) : List Prediction × Bool :=
  if r.2 then (r.1, (r.1.filter fun p => prediction_key_matches p eid det).length == 1)
  else r

/-- One (event, detector) pair of the reconciliation sweep
(lines 462-468). -/
def reconcile_pair (tt : TTOracles) (amp : AmpOracle) (eq : Earthquake) (det : Ifo)
    (st : List Prediction) : List Prediction × Bool :=
  one_check eq.event_id det.ifo (insert_if_absent tt amp eq det st)

/-- The inner `for det in ifos` loop of `run_seismon` (line 461): an
uncaught error aborts the remaining pairs, committed rows persist. -/
def reconcile_detectors (tt : TTOracles) (amp : AmpOracle) (eq : Earthquake) :
    List Ifo → List Prediction → List Prediction × Bool
  | [], st => (st, true)
  | det :: rest, st =>
    if (reconcile_pair tt amp eq det st).2 then
      reconcile_detectors tt amp eq rest (reconcile_pair tt amp eq det st).1
    else reconcile_pair tt amp eq det st

/-- The outer `for eq in eqs` loop of `run_seismon` (line 460). -/
def reconcile_events (tt : TTOracles) (amp : AmpOracle) :
    List Earthquake → List Ifo → List Prediction → List Prediction × Bool
  | [], _, st => (st, true)
  | eq :: rest, ifos, st =>
    if (reconcile_detectors tt amp eq ifos st).2 then
      reconcile_events tt amp rest ifos (reconcile_detectors tt amp eq ifos st).1
    else reconcile_detectors tt amp eq ifos st

/-- The `repeat` argument `run_seismon` passes to `ingest_earthquakes`
(lines 452-455): `True` exactly when the `init_db` flag is set. -/
def run_seismon_repeat_arg (init_flag : Bool) : Bool :=
  if init_flag then true else false

/-- Per-cycle inputs of `run_seismon`: the clock reading, the lookback
window in days, the feed directory contents, and the detector registry. -/
structure CycleInput where
  now : ℚ
  lookback : ℚ
  feed : List EventFolder
  ifos : List Ifo

/-- Database state acted on by one cycle: the Earthquake and Prediction
tables. -/
structure SysState where
  events : List Earthquake
  preds : List Prediction

/-- `run_seismon(purge, init_db)` (lines 446-468): scan the feed, then
reconcile the full Event Store × Detector Registry cross-product.  The
purge (lines 448-450) only touches the filesystem feed, never the
database, and is omitted from the row state. -/
def run_seismon (tt : TTOracles) (amp : AmpOracle) (inp : CycleInput) (init_flag : Bool)
    (st : SysState) : SysState :=
  ⟨(ingest_earthquakes inp.now inp.lookback (run_seismon_repeat_arg init_flag) inp.feed
      st.events).1,
   (reconcile_events tt amp
      (ingest_earthquakes inp.now inp.lookback (run_seismon_repeat_arg init_flag) inp.feed
        st.events).1
      inp.ifos st.preds).1⟩

/-- The steady-state `while True` loop (lines 510-516) run for finitely
many cycles: each iteration calls `run_seismon` with the unchanged
command-line flags. -/
def run_cycles (tt : TTOracles) (amp : AmpOracle) (init_flag : Bool) :
    List CycleInput → SysState → SysState
  | [], st => st
  | inp :: rest, st => run_cycles tt amp init_flag rest (run_seismon tt amp inp init_flag st)

/-- Helper: a Prediction row produced by `compute_predictions` is keyed by
the pair it was computed for. -/
theorem compute_predictions_key (tt : TTOracles) (amp : AmpOracle) (eq : Earthquake)
    (det : Ifo) (r : Prediction)
    (h : compute_predictions tt amp eq det = Except.ok r) :
    r.event_id = eq.event_id ∧ r.ifo = det.ifo := by
  unfold compute_predictions at h
  split at h
  · exact absurd h (by simp)
  · injection h with h
    subst h
    exact ⟨rfl, rfl⟩

/-- Helper: the check-then-insert of one pair preserves the at-most-once
invariant and only ever appends. -/
theorem insert_if_absent_preserves (tt : TTOracles) (amp : AmpOracle) (eq : Earthquake)
    (det : Ifo) (st : List Prediction) (h : atMostOne st) :
    atMostOne (insert_if_absent tt amp eq det st).1 ∧
      st <+: (insert_if_absent tt amp eq det st).1 := by
  unfold insert_if_absent
  by_cases h0 : (st.filter fun p => prediction_key_matches p eq.event_id det.ifo).length = 0
  · rw [if_pos h0]
    cases hcp : compute_predictions tt amp eq det with
    | error e => exact ⟨h, List.prefix_rfl⟩
    | ok row =>
      refine ⟨?_, List.prefix_append st [row]⟩
      unfold atMostOne
      rw [List.pairwise_append]
      refine ⟨h, List.pairwise_singleton _ row, ?_⟩
      intro a ha b hb
      obtain rfl := List.mem_singleton.mp hb
      obtain ⟨he, hi⟩ := compute_predictions_key tt amp eq det b hcp
      have hfa := List.filter_eq_nil_iff.mp (List.length_eq_zero.mp h0) a ha
      intro hsame
      apply hfa
      simp only [prediction_key_matches, Bool.and_eq_true, beq_iff_eq]
      exact ⟨hsame.1.trans he, hsame.2.trans hi⟩
  · rw [if_neg h0]
    exact ⟨h, List.prefix_rfl⟩

/-- Helper: the post-insert `.one()` check does not change the rows. -/
theorem one_check_fst (eid det : String) (r : List Prediction × Bool) :
    (one_check eid det r).1 = r.1 := by
  unfold one_check
  split <;> rfl

/-- Helper: one reconciliation pair preserves the invariant and only
appends. -/
theorem reconcile_pair_preserves (tt : TTOracles) (amp : AmpOracle) (eq : Earthquake)
    (det : Ifo) (st : List Prediction) (h : atMostOne st) :
    atMostOne (reconcile_pair tt amp eq det st).1 ∧
      st <+: (reconcile_pair tt amp eq det st).1 := by
  unfold reconcile_pair
  rw [one_check_fst]
  exact insert_if_absent_preserves tt amp eq det st h

/-- Helper: the detector loop preserves the invariant and only appends. -/
theorem reconcile_detectors_preserves (tt : TTOracles) (amp : AmpOracle) (eq : Earthquake)
    (ifos : List Ifo) :
    ∀ st : List Prediction, atMostOne st →
      atMostOne (reconcile_detectors tt amp eq ifos st).1 ∧
        st <+: (reconcile_detectors tt amp eq ifos st).1 := by
  induction ifos with
  | nil => intro st h; exact ⟨h, List.prefix_rfl⟩
  | cons det rest ih =>
    intro st h
    have hp := reconcile_pair_preserves tt amp eq det st h
    unfold reconcile_detectors
    by_cases hb : (reconcile_pair tt amp eq det st).2 = true
    · rw [if_pos hb]
      have := ih (reconcile_pair tt amp eq det st).1 hp.1
      exact ⟨this.1, hp.2.trans this.2⟩
    · rw [if_neg hb]
      exact hp

/-- Helper: the event loop preserves the invariant and only appends. -/
theorem reconcile_events_preserves (tt : TTOracles) (amp : AmpOracle)
    (eqs : List Earthquake) (ifos : List Ifo) :
    ∀ st : List Prediction, atMostOne st →
      atMostOne (reconcile_events tt amp eqs ifos st).1 ∧
        st <+: (reconcile_events tt amp eqs ifos st).1 := by
  induction eqs with
  | nil => intro st h; exact ⟨h, List.prefix_rfl⟩
  | cons eq rest ih =>
    intro st h
    have hd := reconcile_detectors_preserves tt amp eq ifos st h
    unfold reconcile_events
    by_cases hb : (reconcile_detectors tt amp eq ifos st).2 = true
    · rw [if_pos hb]
      have := ih (reconcile_detectors tt amp eq ifos st).1 hd.1
      exact ⟨this.1, hd.2.trans this.2⟩
    · rw [if_neg hb]
      exact hd

/-- Claim C1: for every (event, detector) pair, after any number of
reconciliation cycles, at most one Prediction row exists — the reconciler
only computes and inserts for a pair when the query keyed by (event
identifier, detector name) finds no rows — and once rows exist, further
cycles never modify or duplicate them (the old store is a prefix of the
new one, rows unchanged). -/
theorem prediction_at_most_once (tt : TTOracles) (amp : AmpOracle) (init_flag : Bool)
    (inputs : List CycleInput) (st : SysState) (h : atMostOne st.preds) :
    atMostOne (run_cycles tt amp init_flag inputs st).preds ∧
      st.preds <+: (run_cycles tt amp init_flag inputs st).preds := by
  induction inputs generalizing st with
  | nil => exact ⟨h, List.prefix_rfl⟩
  | cons inp rest ih =>
    have hstep := reconcile_events_preserves tt amp
      (ingest_earthquakes inp.now inp.lookback (run_seismon_repeat_arg init_flag) inp.feed
        st.events).1
      inp.ifos st.preds h
    have hrec := ih (run_seismon tt amp inp init_flag st) hstep.1
    exact ⟨hrec.1, hstep.2.trans hrec.2⟩

/-- Amplitude oracle stub returning a constant regression result. -/
def amp_const : AmpOracle := ⟨fun _ _ _ _ _ _ _ _ _ _ => ⟨1, 0, 0, 0, 0⟩⟩

/-- A concrete cycle input: the clock at 0, a 7-day lookback, the fresh
feed folder, and the LHO detector. -/
def cycle_input_sample : CycleInput := ⟨0, 7, [folder_new], [ifo_lho]⟩

/-- Witness for claim C1 at a concrete input: one cycle over one event
folder and one detector, starting from empty stores. -/
theorem prediction_at_most_once_witness :
    atMostOne (run_cycles tt_err amp_const false [cycle_input_sample]
        (SysState.mk [] [])).preds ∧
      (SysState.mk [] []).preds <+:
        (run_cycles tt_err amp_const false [cycle_input_sample] (SysState.mk [] [])).preds :=
  prediction_at_most_once tt_err amp_const false [cycle_input_sample] (SysState.mk [] [])
    List.Pairwise.nil

/-- The `repeat` arguments passed to `ingest_earthquakes` over successive
iterations of the steady-state `while True` loop (lines 510-516): every
iteration calls `run_seismon(purge=args.purge, init_db=args.init_db)` with
the command-line namespace unchanged, so cycle `k` records
`run_seismon_repeat_arg args.init_db`. -/
def steady_loop_repeat_args (init_flag : Bool) : ℕ → List Bool
  | 0 => []
  | n + 1 => run_seismon_repeat_arg init_flag :: steady_loop_repeat_args init_flag n

/-- Counterexample to claim C8: with the (re)initialize flag set, the
second cycle of the steady-state loop still passes `repeat=True` to the
scanner — sentinel markers are not respected again after the first pass. -/
theorem second_cycle_still_full_reingest :
    (steady_loop_repeat_args true 2).get? 1 = some true ∧
      (steady_loop_repeat_args true 2).get? 1 ≠ some false := by
  exact ⟨rfl, by decide⟩

/-- Claim C8 as amended: when the (re)initialize flag is set, every cycle
of the steady-state loop (not just the first) runs the scan in
full-reingest mode, because the flag is passed unchanged to `run_seismon`
on each iteration. -/
theorem steady_loop_always_full_reingest (n i : ℕ) (h : i < n) :
    (steady_loop_repeat_args true n).get? i = some true := by
  induction n generalizing i with
  | zero => exact absurd h (Nat.not_lt_zero i)
  | succ n ih =>
    cases i with
    | zero => rfl
    | succ i => exact ih i (Nat.lt_of_succ_lt_succ h)

/-- Witness for the amended claim C8 at a concrete input: the second of
three cycles runs in full-reingest mode. -/
theorem steady_loop_always_full_reingest_witness :
    (steady_loop_repeat_args true 3).get? 1 = some true :=
  steady_loop_always_full_reingest 3 1 (by decide)

/-- Outcome of the `__main__` block (lines 470-516): either the process
exits with a code and a final database state, or it enters the infinite
steady-state loop (which has no normal exit). -/
inductive MainOutcome (St : Type) where
  | exited (code : ℕ) (final : St)
  | loopsForever
deriving DecidableEq

/-- Control flow of the `__main__` block over an abstract storage state:
if the configuration file is missing, report and `exit(1)` before the
database connection is even created (lines 483-485); otherwise connect,
optionally drop/recreate the schema and reseed the detector registry
(lines 496-504, the `bootstrap` action); in debug mode run exactly one
`run_seismon` cycle and `exit(0)` (lines 506-508); otherwise enter the
`while True` loop (lines 510-516). -/
def main_flow {St : Type} (configExists init_flag debug : Bool)
    (bootstrap : St → St) (cycle : St → St) (st : St) : MainOutcome St :=
  if configExists = false then MainOutcome.exited 1 st
  else if debug then MainOutcome.exited 0 (cycle (if init_flag then bootstrap st else st))
  else MainOutcome.loopsForever

/-- Claim C9: with a missing configuration file the process exits with
code 1 and the storage state untouched (no bootstrap, no cycle); in debug
mode with the configuration present, it exits with code 0 after exactly
one completed cycle. -/
theorem main_exit_codes {St : Type} (configExists init_flag debug : Bool)
    (bootstrap : St → St) (cycle : St → St) (st : St) :
    (configExists = false →
      main_flow configExists init_flag debug bootstrap cycle st = MainOutcome.exited 1 st) ∧
    (configExists = true → debug = true →
      main_flow configExists init_flag debug bootstrap cycle st =
        MainOutcome.exited 0 (cycle (if init_flag then bootstrap st else st))) := by
  constructor
  · intro hc
    unfold main_flow
    rw [if_pos hc]
  · intro hc hd
    unfold main_flow
    rw [hc, hd]
    rfl

/-- Witness for claim C9 at concrete inputs: storage states as ℕ, the
bootstrap adding 10 and the cycle adding 1. -/
theorem main_exit_codes_witness :
    (main_flow false false true (fun n => n + 10) (fun n => n + 1) 0 =
      MainOutcome.exited 1 0) ∧
    (main_flow true false true (fun n => n + 10) (fun n => n + 1) 0 =
      MainOutcome.exited 0 ((fun n => n + 1) (if false then (fun n => n + 10) 0 else 0))) :=
  ⟨(main_exit_codes false false true (fun n => n + 10) (fun n => n + 1) 0).1 rfl,
   (main_exit_codes true false true (fun n => n + 10) (fun n => n + 1) 0).2 rfl rfl⟩
